import Mathlib

/-!
Shallow embedding of the GreenFund backend's carbon-accounting and
climate-assessment engine, together with proofs checking the natural-language
specification against it.

Sources embedded:
- `app/carbon_model.py` (`EMISSION_FACTORS`, `estimate_carbon_footprint`)
- `app/routers/activities.py` (`get_carbon_summary_for_farm`)
- `app/routers/climate_actions.py` (`_fetch_weather_data`)
- `app/recommendations.py` (`generate_recommendations`)
- `app/climate_rules.py` is imported by the source but is not part of the
  provided sources; its functions (`assess_water_stress`,
  `assess_pest_disease_risks`) are modelled from the spec, as marked.

Python floats are embedded as rationals (`ℚ`): the arithmetic performed by the
code (sums of finitely many stored values) is exact in `ℚ`, and the spec's
1e-9 tolerance is subsumed by exact equality.
-/

/-- `app/models.py`, `class FarmActivity`: the fields the engine reads.
`carbon_footprint_kg : Optional[float] = None` is an `Option ℚ`; `id`, `date`,
`user_id` and the ORM relationships play no role in the embedded operations. -/
structure FarmActivity where
  activity_type : String
  description : Option String
  carbon_footprint_kg : Option ℚ
  farm_id : Nat
deriving Repr, DecidableEq

/-- `app/carbon_model.py`, `EMISSION_FACTORS`: the fixed category table,
as an association list standing for the Python dict. -/
def EMISSION_FACTORS : List (String × ℚ) :=
  [("Planting", 3/2),
   ("Irrigation", 11/5),
   ("Fertilizing", 10),
   ("Pest Control", 3),
   ("Harvesting", 9/5),
   ("Other", 1/2)]

/-- `app/carbon_model.py`, `estimate_carbon_footprint`:
`EMISSION_FACTORS.get(activity_type, 0.5)`; the `description` parameter is
accepted and ignored. -/
def estimate_carbon_footprint (activity_type : String)
    (description : Option String) : ℚ :=
  ((EMISSION_FACTORS.lookup activity_type).getD (1/2) : ℚ)

/-- `app/routers/activities.py`, `class CarbonSummary`: the response model.
The Python `Dict[str, float]` is an association list whose keys are distinct. -/
structure CarbonSummary where
  total_carbon_kg : ℚ
  breakdown_by_activity : List (String × ℚ)
deriving Repr, DecidableEq

/-- The non-NULL `carbon_footprint_kg` values of the rows of `rows` whose
`activity_type` equals `t` — what SQL's `SUM(carbon_footprint_kg)` aggregates
inside the `GROUP BY activity_type` group for `t` (SQL `SUM` skips NULLs). -/
def groupFootprints (rows : List FarmActivity) (t : String) : List ℚ :=
  (rows.filter (fun a => a.activity_type = t)).filterMap
    (fun a => a.carbon_footprint_kg)

/-- `app/routers/activities.py`, `get_carbon_summary_for_farm`, breakdown query:
`SELECT activity_type, SUM(carbon_footprint_kg) ... GROUP BY activity_type`,
then the dict comprehension keeps only groups whose sum is not `None`.
A group's SQL `SUM` is NULL exactly when every value in the group is NULL,
i.e. when `groupFootprints rows t = []`. -/
def breakdownByActivity (rows : List FarmActivity) : List (String × ℚ) :=
  (rows.map (fun a => a.activity_type)).dedup.filterMap
    (fun t =>
      if groupFootprints rows t = [] then none
      else some (t, (groupFootprints rows t).sum))

/-- `app/routers/activities.py`, `get_carbon_summary_for_farm`:
`total_carbon` is an independent `SELECT SUM(carbon_footprint_kg)` over the
farm's rows (SQL `SUM` skips NULLs, and `total_carbon or 0.0` turns the
all-NULL/empty `None` into `0.0`); the breakdown is the grouped query above. -/
def get_carbon_summary_for_farm (farm_id : Nat)
    (activities : List FarmActivity) : CarbonSummary :=
  let rows := activities.filter (fun a => a.farm_id = farm_id)
  { total_carbon_kg := (rows.filterMap (fun a => a.carbon_footprint_kg)).sum
    breakdown_by_activity := breakdownByActivity rows }

/-- Follows the claim's words, for refinement comparison with
`get_carbon_summary_for_farm` (not translated from the source): groups by
category, sums `carbonFootprintKg` *falling back to
`CarbonEstimator.estimate` for a record lacking a precomputed value*, omits
categories with zero activities, and computes the grand total as the sum of
the category sums. -/
def aggregate_spec (farm_id : Nat) (activities : List FarmActivity) :
    CarbonSummary :=
  let rows := activities.filter (fun a => a.farm_id = farm_id)
  let value : FarmActivity → ℚ := fun a =>
    a.carbon_footprint_kg.getD
      (estimate_carbon_footprint a.activity_type a.description)
  let bd := (rows.map (fun a => a.activity_type)).dedup.map
    (fun t => (t, ((rows.filter (fun a => a.activity_type = t)).map value).sum))
  { total_carbon_kg := (bd.map Prod.snd).sum
    breakdown_by_activity := bd }

/-! ## Weather fetch (`app/routers/climate_actions.py`, `_fetch_weather_data`)

The loop body's externally visible behaviour per iteration is determined by
what the HTTP attempt does, so the fetch is embedded as a function of the
sequence of attempt outcomes (attempt `i`'s outcome is `outcomes i`). -/

/-- Outcome of one HTTP attempt inside `_fetch_weather_data`:
a 2xx response carrying the parsed `daily` object (`success`);
an `httpx.RequestError` — connection failure or timeout (`requestError`);
an `httpx.HTTPStatusError` raised by `raise_for_status()` for any 4xx/5xx
status (`statusError`); or any other exception (`otherError`). -/
inductive AttemptOutcome where
  | success (daily : List (String × List ℚ))
  | requestError
  | statusError (code : Nat)
  | otherError
deriving Repr, DecidableEq

/-- Result of `_fetch_weather_data`: the `daily` data on success, or the
status code of the raised `HTTPException`. -/
inductive FetchResult where
  | ok (daily : List (String × List ℚ))
  | httpError (status : Nat)
deriving Repr, DecidableEq

/-- Observable trace of one `_fetch_weather_data` call: its result, how many
HTTP attempts were made, and the argument of each `asyncio.sleep` call in
order. -/
structure FetchTrace where
  result : FetchResult
  attempts : Nat
  sleeps : List Nat
deriving Repr, DecidableEq

/-- `_fetch_weather_data`'s `for attempt in range(max_retries + 1)` loop from
attempt number `attempt` on, with `remaining` further iterations available
after this one (`remaining = max_retries - attempt`); mirrors the body:
success returns the `daily` data; `RequestError`/`HTTPStatusError` on the last
attempt raises 503/502 respectively, otherwise sleeps
`base_delay * 2 ** attempt` and retries; any other exception raises 500
immediately. -/
def fetchLoop (outcomes : Nat → AttemptOutcome) (baseDelay : Nat) :
    Nat → Nat → FetchTrace
  | 0, attempt =>
    match outcomes attempt with
    | .success d => ⟨.ok d, 1, []⟩
    | .requestError => ⟨.httpError 503, 1, []⟩
    | .statusError _ => ⟨.httpError 502, 1, []⟩
    | .otherError => ⟨.httpError 500, 1, []⟩
  | remaining + 1, attempt =>
    match outcomes attempt with
    | .success d => ⟨.ok d, 1, []⟩
    | .otherError => ⟨.httpError 500, 1, []⟩
    | .requestError =>
      let rest := fetchLoop outcomes baseDelay remaining (attempt + 1)
      ⟨rest.result, rest.attempts + 1, baseDelay * 2 ^ attempt :: rest.sleeps⟩
    | .statusError _ =>
      let rest := fetchLoop outcomes baseDelay remaining (attempt + 1)
      ⟨rest.result, rest.attempts + 1, baseDelay * 2 ^ attempt :: rest.sleeps⟩

/-- `_fetch_weather_data` with the source's constants:
`max_retries = 2` (3 total attempts), `base_delay = 1`. -/
def fetch_weather_data (outcomes : Nat → AttemptOutcome) : FetchTrace :=
  fetchLoop outcomes 1 2 0

/-- A transient attempt failure in the claim's sense: connection error or
timeout (both are `httpx.RequestError`) or a 5xx status. -/
def transientFailure : AttemptOutcome → Bool
  | .requestError => true
  | .statusError c => 500 ≤ c
  | _ => false

/-- Any `HTTPStatusError` outcome (a 4xx or 5xx response). -/
def statusFailure : AttemptOutcome → Bool
  | .statusError _ => true
  | _ => false

/-! ## Climate rules (`app/climate_rules.py` — not among the provided sources)

`app/routers/climate_actions.py` and `app/recommendations.py` import
`assess_pest_disease_risks`, `assess_water_stress` and `assess_carbon_trend`
from `app.climate_rules`, but that module is not part of the provided sources,
so the two functions the claims need are modelled from the spec. -/

/-- Risk level, spec §3: ordinal `{Low, Medium, High}`. -/
inductive RiskLevel where
  | Low
  | Medium
  | High
deriving Repr, DecidableEq

/-- The forecast data handed to the rules: the provider's `daily` object,
one optional same-length array per requested field (spec §6). The four field
names are the ones the routers request
(`temperature_2m_max,temperature_2m_min,precipitation_sum,relative_humidity_2m_mean`);
`none` means the field is absent from the supplied data. -/
structure Forecast where
  temperature_2m_max : Option (List ℚ)
  temperature_2m_min : Option (List ℚ)
  precipitation_sum : Option (List ℚ)
  relative_humidity_2m_mean : Option (List ℚ)
deriving Repr, DecidableEq

/-- A forecast field a rule can require. -/
inductive ForecastField where
  | tempMax
  | tempMin
  | precipitation
  | humidity
deriving Repr, DecidableEq

/-- Look a required field up in the supplied forecast data. -/
def fieldData (f : Forecast) : ForecastField → Option (List ℚ)
  | .tempMax => f.temperature_2m_max
  | .tempMin => f.temperature_2m_min
  | .precipitation => f.precipitation_sum
  | .humidity => f.relative_humidity_2m_mean

/-- Modelled from the spec (§4.4): a pest/disease rule is "keyed on thresholds
over temperature, precipitation, and humidity aggregates … and optionally
gated by crop relevance"; `field` is the forecast field its trigger reads,
`crop` is the optional crop gate (`none` = crop-agnostic). -/
structure PestRule where
  pest : String
  field : ForecastField
  crop : Option String
  trigger : List ℚ → Bool
  risk : RiskLevel

/-- Whether a rule's crop gate admits the supplied crop: crop-agnostic rules
always apply; a crop-gated rule applies only when that crop is supplied
(spec §4.4: "Absence of a crop name evaluates crop-agnostic rules only"). -/
def cropAdmits (rule : PestRule) (crop : Option String) : Bool :=
  match rule.crop with
  | none => true
  | some c => crop = some c

/-- Modelled from the spec: `assess_pest_disease_risks` lives in
`app/climate_rules.py`, which is not among the provided sources. Spec §4.4:
"evaluates one or more named pest/disease rules … a rule contributes an entry
only if its trigger condition holds", and §4.4/§7: "when a forecast field
required by a rule is absent from the supplied data, that rule is skipped
(not treated as a failure of the whole assessment)". The rule table is a
parameter since the spec does not fix it. -/
def assess_pest_disease_risks (rules : List PestRule) (f : Forecast)
    (crop : Option String) : List (String × RiskLevel) :=
  rules.filterMap (fun r =>
    if cropAdmits r crop then
      match fieldData f r.field with
      | none => none
      | some xs => if r.trigger xs then some (r.pest, r.risk) else none
    else none)

/-- Water-stress result: the single risk level plus the separate,
non-exclusive flood/waterlogging flag (spec §4.4). -/
structure WaterStressResult where
  level : RiskLevel
  floodFlag : Bool
deriving Repr, DecidableEq

/-- Modelled from the spec: `assess_water_stress` lives in
`app/climate_rules.py`, which is not among the provided sources. Spec §4.4
design default: total precipitation < 2mm over the window ⇒ High dry-stress;
any single-day precipitation > 10mm ⇒ flood flag, separate and non-exclusive.
The spec does not fix the Low/Medium boundary; 10mm is chosen here (any value
above 2 and at most 21 gives the same answers on the spec's two test
vectors). A forecast without precipitation data yields the neutral `Low`. -/
def assess_water_stress (f : Forecast) : WaterStressResult :=
  match f.precipitation_sum with
  | none => ⟨.Low, false⟩
  | some ps =>
    { level :=
        if ps.sum < 2 then .High
        else if ps.sum < 10 then .Medium
        else .Low
      floodFlag := ps.any (fun d => 10 < d) }

/-! ## Recommendations (`app/recommendations.py`, `generate_recommendations`) -/

/-- Outcome of the OpenAI narrative call inside `generate_recommendations`:
`ok recs` — the call returned and the body parsed as a JSON object, with
`recs` the value of its `"recommendations"` key (`ok none` when the key is
missing); `apiError` — the client raised `openai.APIError`; `otherError` —
any other exception (timeout, malformed/unparseable JSON, quota/auth errors
not surfaced as `APIError`, …). -/
inductive AIOutcome where
  | ok (recommendations : Option (List String))
  | apiError
  | otherError
deriving Repr, DecidableEq

/-- `app/recommendations.py`, `generate_recommendations`: runs the two rules
over the forecast, prompts the AI with the assessments, and returns the AI's
`"recommendations"` list; every failure branch returns a fixed one-element
message list (the rule-only fallback in the source is commented out). The
rule table and the AI outcome are parameters of the embedding. -/
def generate_recommendations (rules : List PestRule) (daily_forecast : Forecast)
    (activities : List FarmActivity) (farm_crop : Option String)
    (ai : AIOutcome) : List String :=
  let _pest_assessment := assess_pest_disease_risks rules daily_forecast farm_crop
  let _water_assessment := assess_water_stress daily_forecast
  let _activity_summary := (activities.take 5).map (fun a => a.activity_type)
  match ai with
  | .ok (some recs) => recs
  | .ok none => ["AI analysis failed to generate recommendations."]
  | .apiError => ["Could not generate AI recommendations due to API error."]
  | .otherError => ["Could not generate AI recommendations at this time."]

/-- Follows the claim/spec's words, for refinement comparison with
`generate_recommendations` (not translated from the source): the claimed
fallback on collaborator failure is "a deterministic rule-only recommendation
list built directly from the evidence facts (one message per fact, capped at
the same N)", and a single generic "conditions stable" message only when no
fallback facts exist. -/
def fallback_recommendations_spec (facts : List String) (cap : Nat) :
    List String :=
  if facts = [] then ["Conditions stable."] else facts.take cap

/-- The local rule-evidence facts of a recommendation request, one message per
fact: a message per triggered pest/disease entry and a message for high water
stress (the message shapes echo the commented-out fallback in
`app/recommendations.py`). -/
def evidence_facts (pest : List (String × RiskLevel))
    (water : WaterStressResult) : List String :=
  pest.map (fun p => "Monitor crops for " ++ p.1 ++ " risk.") ++
    (if water.level = .High then
      ["High water stress expected. Consider irrigation scheduling."]
    else [])

/-- A 7-day forecast supplying only precipitation data, all-zero: a dry week. -/
def dryWeekForecast : Forecast :=
  ⟨none, none, some (List.replicate 7 0), none⟩

/-- The empty forecast: no field supplied. -/
def emptyForecast : Forecast :=
  ⟨none, none, none, none⟩

/-! ## Aggregation lemmas

The grand total of `get_carbon_summary_for_farm` is an independent SQL `SUM`;
these lemmas show it nevertheless coincides with the sum of the per-category
sums, because the categories partition the rows. -/

/-- Splitting the summed non-NULL footprints of a row list along a Boolean
predicate. -/
lemma sum_footprints_filter_split (p : FarmActivity → Bool)
    (L : List FarmActivity) :
    ((L.filter p).filterMap (fun a => a.carbon_footprint_kg)).sum +
      ((L.filter (fun a => !(p a))).filterMap
        (fun a => a.carbon_footprint_kg)).sum =
    (L.filterMap (fun a => a.carbon_footprint_kg)).sum := by
  induction L with
  | nil => simp
  | cons a L ih =>
    cases hp : p a <;> cases hcf : a.carbon_footprint_kg <;>
      simp [List.filter_cons, hp, hcf, List.filterMap_cons] <;>
      linarith [ih]

/-- Summing the non-NULL footprints fiberwise over a duplicate-free list of
keys covering every row's `activity_type` gives the overall sum. -/
lemma sum_footprints_fiberwise :
    ∀ (ks : List String), ks.Nodup →
      ∀ L : List FarmActivity, (∀ a ∈ L, a.activity_type ∈ ks) →
        (ks.map (fun t =>
          ((L.filter (fun a => a.activity_type = t)).filterMap
            (fun a => a.carbon_footprint_kg)).sum)).sum =
        (L.filterMap (fun a => a.carbon_footprint_kg)).sum := by
  intro ks
  induction ks with
  | nil =>
    intro _ L hcov
    have hL : L = [] := by
      cases L with
      | nil => rfl
      | cons a L => exact absurd (hcov a (by simp)) (by simp)
    simp [hL]
  | cons t ks ih =>
    intro hnd L hcov
    obtain ⟨ht, hnd'⟩ := List.nodup_cons.mp hnd
    have htail : ∀ u ∈ ks,
        ((L.filter (fun a => a.activity_type = u)).filterMap
          (fun a => a.carbon_footprint_kg)).sum =
        (((L.filter (fun a => !(decide (a.activity_type = t)))).filter
          (fun a => a.activity_type = u)).filterMap
          (fun a => a.carbon_footprint_kg)).sum := by
      intro u hu
      have hut : u ≠ t := fun e => ht (e ▸ hu)
      have hfilters : L.filter (fun a => decide (a.activity_type = u)) =
          (L.filter (fun a => !(decide (a.activity_type = t)))).filter
            (fun a => decide (a.activity_type = u)) := by
        rw [List.filter_filter]
        refine List.filter_congr ?_
        intro a _
        by_cases hau : a.activity_type = u
        · have hat : a.activity_type ≠ t := fun e => hut (hau.symm.trans e)
          simp [hau, hat, hut]
        · simp [hau]
      rw [hfilters]
    have hcov' : ∀ a ∈ L.filter (fun a => !(decide (a.activity_type = t))),
        a.activity_type ∈ ks := by
      intro a ha
      obtain ⟨haL, hat⟩ := List.mem_filter.mp ha
      have hne : a.activity_type ≠ t := by
        simpa using hat
      rcases List.mem_cons.mp (hcov a haL) with h | h
      · exact absurd h hne
      · exact h
    calc (((t :: ks).map (fun u =>
            ((L.filter (fun a => a.activity_type = u)).filterMap
              (fun a => a.carbon_footprint_kg)).sum)).sum)
        = ((L.filter (fun a => a.activity_type = t)).filterMap
            (fun a => a.carbon_footprint_kg)).sum +
          (ks.map (fun u =>
            (((L.filter (fun a => !(decide (a.activity_type = t)))).filter
              (fun a => a.activity_type = u)).filterMap
              (fun a => a.carbon_footprint_kg)).sum)).sum := by
          rw [List.map_cons, List.sum_cons, List.map_congr_left htail]
      _ = ((L.filter (fun a => a.activity_type = t)).filterMap
            (fun a => a.carbon_footprint_kg)).sum +
          ((L.filter (fun a => !(decide (a.activity_type = t)))).filterMap
            (fun a => a.carbon_footprint_kg)).sum := by
          rw [ih hnd' _ hcov']
      _ = (L.filterMap (fun a => a.carbon_footprint_kg)).sum := by
          exact sum_footprints_filter_split (fun a => a.activity_type = t) L

/-- Dropping the all-NULL groups from the breakdown does not change the sum of
its values, because each dropped group sums to zero. -/
lemma breakdown_values_sum (rows : List FarmActivity) :
    ∀ ks : List String,
      ((ks.filterMap (fun t =>
        if groupFootprints rows t = [] then none
        else some (t, (groupFootprints rows t).sum))).map Prod.snd).sum =
      (ks.map (fun t => (groupFootprints rows t).sum)).sum := by
  intro ks
  induction ks with
  | nil => simp
  | cons t ks ih =>
    by_cases h : groupFootprints rows t = []
    · simp [List.filterMap_cons, h, ih]
    · simp [List.filterMap_cons, h, ih]

/-- The total of a carbon summary equals the sum of its breakdown values. -/
lemma total_eq_breakdown_sum (rows : List FarmActivity) :
    ((breakdownByActivity rows).map Prod.snd).sum =
      (rows.filterMap (fun a => a.carbon_footprint_kg)).sum := by
  unfold breakdownByActivity
  rw [breakdown_values_sum rows]
  have hcov : ∀ a ∈ rows,
      a.activity_type ∈ (rows.map (fun a => a.activity_type)).dedup := by
    intro a ha
    exact List.mem_dedup.mpr (List.mem_map.mpr ⟨a, ha, rfl⟩)
  have := sum_footprints_fiberwise
    ((rows.map (fun a => a.activity_type)).dedup) (List.nodup_dedup _)
    rows hcov
  simpa [groupFootprints] using this

/-! ## Claims -/

/-- C1: for every activity set of a farm whose stored footprints are
nonnegative (every stored `carbon_footprint_kg` is produced by the carbon
estimator, whose factors are all positive), the carbon summary returned by
`get_carbon_summary_for_farm` satisfies
`total_carbon_kg = sum of the values of breakdown_by_activity` (exactly, hence
within any tolerance) and `total_carbon_kg ≥ 0`. -/
theorem carbon_summary_invariant (farm_id : Nat)
    (activities : List FarmActivity)
    (h : ∀ a ∈ activities, 0 ≤ a.carbon_footprint_kg.getD 0) :
    (get_carbon_summary_for_farm farm_id activities).total_carbon_kg =
      ((get_carbon_summary_for_farm farm_id
        activities).breakdown_by_activity.map Prod.snd).sum ∧
    0 ≤ (get_carbon_summary_for_farm farm_id activities).total_carbon_kg := by
  constructor
  · exact (total_eq_breakdown_sum
      (activities.filter (fun a => a.farm_id = farm_id))).symm
  · refine List.sum_nonneg ?_
    intro x hx
    obtain ⟨a, ha, hcf⟩ := List.mem_filterMap.mp hx
    have haA : a ∈ activities := (List.mem_filter.mp ha).1
    have := h a haA
    rw [hcf] at this
    exact this

/-- C1 witness: the invariant holds at a concrete farm with one
`Planting` activity whose stored footprint is `0`. -/
theorem carbon_summary_invariant_witness :
    (∀ a ∈ [(⟨"Planting", none, some 0, 1⟩ : FarmActivity)],
      0 ≤ a.carbon_footprint_kg.getD 0) ∧
    ((get_carbon_summary_for_farm 1
        [(⟨"Planting", none, some 0, 1⟩ : FarmActivity)]).total_carbon_kg =
      ((get_carbon_summary_for_farm 1
        [(⟨"Planting", none, some 0, 1⟩ :
          FarmActivity)]).breakdown_by_activity.map Prod.snd).sum ∧
    0 ≤ (get_carbon_summary_for_farm 1
        [(⟨"Planting", none, some 0, 1⟩ : FarmActivity)]).total_carbon_kg) := by
  have h : ∀ a ∈ [(⟨"Planting", none, some 0, 1⟩ : FarmActivity)],
      0 ≤ a.carbon_footprint_kg.getD 0 := by
    intro a ha
    rw [List.mem_singleton] at ha
    subst ha
    exact le_refl 0
  exact ⟨h, carbon_summary_invariant 1 _ h⟩

/-- The positive supporting fact for C1's hypothesis: every value of the
carbon estimator is positive, so estimator-derived stored footprints satisfy
the hypothesis. -/
lemma estimate_carbon_footprint_pos (t : String) (d : Option String) :
    0 < estimate_carbon_footprint t d := by
  unfold estimate_carbon_footprint
  cases hv : EMISSION_FACTORS.lookup t with
  | none => norm_num
  | some v =>
    obtain ⟨l₁, l₂, hl, -⟩ := List.lookup_eq_some_iff.mp hv
    have hmem : (t, v) ∈ EMISSION_FACTORS := by
      rw [hl]
      simp
    simp only [EMISSION_FACTORS, List.mem_cons, List.not_mem_nil, or_false,
      Prod.mk.injEq] at hmem
    rcases hmem with ⟨-, rfl⟩ | ⟨-, rfl⟩ | ⟨-, rfl⟩ | ⟨-, rfl⟩ | ⟨-, rfl⟩ |
      ⟨-, rfl⟩ <;> norm_num

/-- C2: when each of the three attempts fails transiently (connection error,
timeout, or 5xx status), `_fetch_weather_data` makes exactly 3 attempts,
sleeps 1 then 2 time-units between them (doubling from 1), and raises an
error distinguishing a connection failure (503) from an upstream error
status (502), according to the failure of the final attempt. -/
theorem fetch_transient_retries (outcomes : Nat → AttemptOutcome)
    (h : ∀ i, i < 3 → transientFailure (outcomes i) = true) :
    (fetch_weather_data outcomes).attempts = 3 ∧
    (fetch_weather_data outcomes).sleeps = [1, 2] ∧
    (outcomes 2 = .requestError →
      (fetch_weather_data outcomes).result = .httpError 503) ∧
    (∀ c, outcomes 2 = .statusError c →
      (fetch_weather_data outcomes).result = .httpError 502) := by
  have htr : ∀ o, transientFailure o = true →
      o = .requestError ∨ ∃ c, o = .statusError c := by
    intro o ho
    cases o with
    | requestError => exact Or.inl rfl
    | statusError c => exact Or.inr ⟨c, rfl⟩
    | success d => simp [transientFailure] at ho
    | otherError => simp [transientFailure] at ho
  rcases htr _ (h 0 (by omega)) with h0 | ⟨c0, h0⟩ <;>
    rcases htr _ (h 1 (by omega)) with h1 | ⟨c1, h1⟩ <;>
      rcases htr _ (h 2 (by omega)) with h2 | ⟨c2, h2⟩ <;>
        simp [fetch_weather_data, fetchLoop, h0, h1, h2]

/-- C2 witness: a provider answering 500 on every attempt is retried twice
with sleeps 1 and 2 and the fetch ends in the upstream-error result. -/
theorem fetch_transient_retries_witness :
    (∀ i, i < 3 →
      transientFailure ((fun _ => AttemptOutcome.statusError 500) i) = true) ∧
    (fetch_weather_data (fun _ => AttemptOutcome.statusError 500)).attempts
        = 3 ∧
    (fetch_weather_data (fun _ => AttemptOutcome.statusError 500)).sleeps
        = [1, 2] ∧
    ((fun _ => AttemptOutcome.statusError 500) 2 = .requestError →
      (fetch_weather_data (fun _ => AttemptOutcome.statusError 500)).result
        = .httpError 503) ∧
    (∀ c, (fun _ => AttemptOutcome.statusError 500) 2 = .statusError c →
      (fetch_weather_data (fun _ => AttemptOutcome.statusError 500)).result
        = .httpError 502) :=
  ⟨by decide, fetch_transient_retries _ (by decide)⟩

/-- C5 counterexample: a provider answering 404 (a non-transient 4xx, not a
rate limit) on every attempt is nevertheless retried — 3 attempts and two
backoff sleeps are made, not a single attempt with none. -/
theorem fetch_4xx_retried_counterexample :
    (fetch_weather_data (fun _ => AttemptOutcome.statusError 404)).attempts
        = 3 ∧
    (fetch_weather_data (fun _ => AttemptOutcome.statusError 404)).sleeps
        = [1, 2] ∧
    ¬((fetch_weather_data (fun _ => AttemptOutcome.statusError 404)).attempts
        = 1 ∧
      (fetch_weather_data (fun _ => AttemptOutcome.statusError 404)).sleeps
        = []) := by
  decide

/-- C5 (amended): `raise_for_status` raises `httpx.HTTPStatusError` for every
4xx as well as 5xx, and the retry handler catches it, so a fetch whose
attempts all fail with an HTTP error status of any class — including a
non-rate-limit 4xx on the first attempt — performs all 3 attempts with
backoff sleeps 1 and 2 and then fails with the upstream-error result (502);
it does not fail immediately after one attempt. -/
theorem fetch_status_error_retries (outcomes : Nat → AttemptOutcome)
    (h : ∀ i, i < 3 → statusFailure (outcomes i) = true) :
    (fetch_weather_data outcomes).attempts = 3 ∧
    (fetch_weather_data outcomes).sleeps = [1, 2] ∧
    (fetch_weather_data outcomes).result = .httpError 502 := by
  have hst : ∀ o, statusFailure o = true → ∃ c, o = .statusError c := by
    intro o ho
    cases o with
    | statusError c => exact ⟨c, rfl⟩
    | requestError => simp [statusFailure] at ho
    | success d => simp [statusFailure] at ho
    | otherError => simp [statusFailure] at ho
  obtain ⟨c0, h0⟩ := hst _ (h 0 (by omega))
  obtain ⟨c1, h1⟩ := hst _ (h 1 (by omega))
  obtain ⟨c2, h2⟩ := hst _ (h 2 (by omega))
  simp [fetch_weather_data, fetchLoop, h0, h1, h2]

/-- C5 witness (for the amended claim): a provider answering 418 on every
attempt. -/
theorem fetch_status_error_retries_witness :
    (∀ i, i < 3 →
      statusFailure ((fun _ => AttemptOutcome.statusError 418) i) = true) ∧
    (fetch_weather_data (fun _ => AttemptOutcome.statusError 418)).attempts
        = 3 ∧
    (fetch_weather_data (fun _ => AttemptOutcome.statusError 418)).sleeps
        = [1, 2] ∧
    (fetch_weather_data (fun _ => AttemptOutcome.statusError 418)).result
        = .httpError 502 :=
  ⟨by decide, fetch_status_error_retries _ (by decide)⟩

/-- C4: `estimate_carbon_footprint` is a pure total function returning exactly
the table value for each recognized category (the code spells the
pest-control category `"Pest Control"`), the `"Other"` factor `0.5` for every
unrecognized category string, and the identical value for identical inputs
(it is a Lean function, so it cannot fail and is deterministic; the last
conjunct states input-determinism explicitly). -/
theorem estimate_carbon_footprint_table :
    (∀ d, estimate_carbon_footprint "Planting" d = 3/2) ∧
    (∀ d, estimate_carbon_footprint "Irrigation" d = 11/5) ∧
    (∀ d, estimate_carbon_footprint "Fertilizing" d = 10) ∧
    (∀ d, estimate_carbon_footprint "Pest Control" d = 3) ∧
    (∀ d, estimate_carbon_footprint "Harvesting" d = 9/5) ∧
    (∀ d, estimate_carbon_footprint "Other" d = 1/2) ∧
    (∀ s, s ∉ EMISSION_FACTORS.map Prod.fst →
      ∀ d, estimate_carbon_footprint s d = 1/2) ∧
    (∀ t d₁ d₂,
      estimate_carbon_footprint t d₁ = estimate_carbon_footprint t d₂) := by
  refine ⟨fun _ => rfl, fun _ => rfl, fun _ => rfl, fun _ => rfl, fun _ => rfl,
    fun _ => rfl, ?_, fun _ _ _ => rfl⟩
  intro s hs d
  simp only [EMISSION_FACTORS, List.map_cons, List.map_nil, List.mem_cons,
    List.not_mem_nil, or_false] at hs
  push_neg at hs
  obtain ⟨n1, n2, n3, n4, n5, n6⟩ := hs
  simp [estimate_carbon_footprint, EMISSION_FACTORS, List.lookup,
    beq_eq_false_iff_ne.mpr n1, beq_eq_false_iff_ne.mpr n2,
    beq_eq_false_iff_ne.mpr n3, beq_eq_false_iff_ne.mpr n4,
    beq_eq_false_iff_ne.mpr n5, beq_eq_false_iff_ne.mpr n6]

/-- C4 witness: `"Weeding"` is not a recognized category and maps to the
`"Other"` factor `0.5`. -/
theorem estimate_carbon_footprint_table_witness :
    ("Weeding" ∉ EMISSION_FACTORS.map Prod.fst) ∧
    estimate_carbon_footprint "Weeding" none = 1/2 :=
  ⟨by decide,
   estimate_carbon_footprint_table.2.2.2.2.2.2.1 "Weeding" (by decide) none⟩

/-- C10: the result of `estimate_carbon_footprint` depends only on the
activity type — for any two description values the outputs coincide
(the function never reads its `description` argument). -/
theorem estimate_carbon_footprint_ignores_description :
    ∀ (activity_type : String) (d₁ d₂ : Option String),
      estimate_carbon_footprint activity_type d₁ =
        estimate_carbon_footprint activity_type d₂ :=
  fun _ _ _ => rfl

/-- C9: aggregating an empty activity set yields total `0` and an empty
by-category mapping. -/
theorem carbon_summary_empty (farm_id : Nat) :
    get_carbon_summary_for_farm farm_id [] =
      { total_carbon_kg := 0, breakdown_by_activity := [] } :=
  rfl

/-- C7: the (spec-modelled) water-stress assessment classifies a 7-day
forecast of all-zero precipitation (total 0mm) as High dry-stress, and a
forecast of 3mm on each of 7 days (total 21mm, no day over 10mm) as Low or
Medium but not High. -/
theorem assess_water_stress_examples :
    (assess_water_stress ⟨none, none, some (List.replicate 7 0), none⟩).level
        = .High ∧
    ((assess_water_stress ⟨none, none, some (List.replicate 7 3), none⟩).level
        = .Low ∨
     (assess_water_stress ⟨none, none, some (List.replicate 7 3), none⟩).level
        = .Medium) ∧
    (assess_water_stress ⟨none, none, some (List.replicate 7 3), none⟩).level
        ≠ .High := by
  have h21 :
      (assess_water_stress
        ⟨none, none, some (List.replicate 7 3), none⟩).level = .Low := by
    norm_num [assess_water_stress, List.replicate]
  refine ⟨by norm_num [assess_water_stress, List.replicate], Or.inl h21, ?_⟩
  rw [h21]
  decide

/-- C8: in the (spec-modelled) pest/disease assessment, every rule whose
required forecast field is absent from the supplied data contributes no entry
and is skipped — removing exactly those rules leaves the assessment
unchanged — and every produced entry originates from a rule whose required
field is present; the assessment is a total function, so a missing field
never makes it fail. -/
theorem pest_rules_missing_field_skipped (rules : List PestRule)
    (f : Forecast) (crop : Option String) :
    assess_pest_disease_risks rules f crop =
      assess_pest_disease_risks
        (rules.filter (fun r => (fieldData f r.field).isSome)) f crop ∧
    ∀ e ∈ assess_pest_disease_risks rules f crop,
      ∃ r ∈ rules, (fieldData f r.field).isSome ∧ e = (r.pest, r.risk) := by
  constructor
  · induction rules with
    | nil => rfl
    | cons r rs ih =>
      by_cases hc : cropAdmits r crop
      · cases hf : fieldData f r.field with
        | none =>
          simp [assess_pest_disease_risks, List.filterMap_cons,
            List.filter_cons, hc, hf] at ih ⊢
          exact ih
        | some xs =>
          simp [assess_pest_disease_risks, List.filterMap_cons,
            List.filter_cons, hc, hf] at ih ⊢
          by_cases htr : r.trigger xs = true
          · simp [htr, ih]
          · simp at htr
            simp [htr, ih]
      · cases hf : fieldData f r.field with
        | none =>
          simp [assess_pest_disease_risks, List.filterMap_cons,
            List.filter_cons, hc, hf] at ih ⊢
          exact ih
        | some xs =>
          simp [assess_pest_disease_risks, List.filterMap_cons,
            List.filter_cons, hc, hf] at ih ⊢
          exact ih
  · intro e he
    obtain ⟨r, hr, hg⟩ := List.mem_filterMap.mp he
    refine ⟨r, hr, ?_⟩
    by_cases hc : cropAdmits r crop
    · cases hf : fieldData f r.field with
      | none => simp [hc, hf] at hg
      | some xs =>
        simp [hc, hf] at hg
        by_cases htr : r.trigger xs = true
        · simp [htr] at hg
          exact ⟨by simp [hf], hg.symm⟩
        · simp at htr
          simp [htr] at hg
    · simp [hc] at hg

/-- C3 counterexample: with evidence present (a rules-detected High water
stress on a dry week) and the collaborator failing with an API error,
`generate_recommendations` returns the fixed generic message, not the
rule-evidence-derived fallback list the claim describes (the evidence-derived
fallback in the source is commented out). -/
theorem generate_recommendations_not_evidence_derived :
    generate_recommendations [] dryWeekForecast [] none .apiError =
      ["Could not generate AI recommendations due to API error."] ∧
    fallback_recommendations_spec
      (evidence_facts (assess_pest_disease_risks [] dryWeekForecast none)
        (assess_water_stress dryWeekForecast)) 3 =
      ["High water stress expected. Consider irrigation scheduling."] ∧
    generate_recommendations [] dryWeekForecast [] none .apiError ≠
      fallback_recommendations_spec
        (evidence_facts (assess_pest_disease_risks [] dryWeekForecast none)
          (assess_water_stress dryWeekForecast)) 3 := by
  have h1 : generate_recommendations [] dryWeekForecast [] none .apiError =
      ["Could not generate AI recommendations due to API error."] := rfl
  have h2 : fallback_recommendations_spec
      (evidence_facts (assess_pest_disease_risks [] dryWeekForecast none)
        (assess_water_stress dryWeekForecast)) 3 =
      ["High water stress expected. Consider irrigation scheduling."] := by
    norm_num [fallback_recommendations_spec, evidence_facts,
      assess_pest_disease_risks, assess_water_stress, dryWeekForecast,
      List.replicate]
  refine ⟨h1, h2, ?_⟩
  rw [h1, h2]
  decide

/-- C3 (amended): whenever the narrative collaborator call raises
(`openai.APIError` or any other exception) or returns a JSON object without a
`"recommendations"` key, `generate_recommendations` still returns a non-empty
list and does not surface the failure as an error, but the list is a single
fixed generic message depending only on the failure kind — identical for
every forecast, activity set, crop and rule table, hence not derived from the
rule-evidence facts. -/
theorem generate_recommendations_failure_generic (rules : List PestRule)
    (daily_forecast : Forecast) (activities : List FarmActivity)
    (farm_crop : Option String) (ai : AIOutcome)
    (h : ai = .apiError ∨ ai = .otherError ∨ ai = .ok none) :
    generate_recommendations rules daily_forecast activities farm_crop ai
        ≠ [] ∧
    generate_recommendations rules daily_forecast activities farm_crop ai =
      generate_recommendations [] emptyForecast [] none ai := by
  rcases h with h | h | h <;> subst h <;>
    exact ⟨by simp [generate_recommendations], rfl⟩

/-- C3 witness: the amended claim at a concrete input — dry-week forecast,
no activities, API-error collaborator outcome. -/
theorem generate_recommendations_failure_generic_witness :
    (AIOutcome.apiError = .apiError ∨ AIOutcome.apiError = .otherError ∨
      AIOutcome.apiError = .ok none) ∧
    (generate_recommendations [] dryWeekForecast [] none .apiError ≠ [] ∧
     generate_recommendations [] dryWeekForecast [] none .apiError =
       generate_recommendations [] emptyForecast [] none .apiError) :=
  ⟨Or.inl rfl,
   generate_recommendations_failure_generic [] dryWeekForecast [] none
     .apiError (Or.inl rfl)⟩

/-- C6 counterexample: a farm whose only activity has no precomputed
footprint. The claim's aggregation (`aggregate_spec`, estimator fallback for
the missing value) yields total `1.5` with breakdown `{Planting: 1.5}`; the
code's `get_carbon_summary_for_farm` ignores the NULL footprint (SQL `SUM`
skips NULLs), yielding total `0` and an empty breakdown. -/
theorem carbon_summary_no_estimator_fallback :
    get_carbon_summary_for_farm 1
        [(⟨"Planting", none, none, 1⟩ : FarmActivity)] =
      { total_carbon_kg := 0, breakdown_by_activity := [] } ∧
    aggregate_spec 1 [(⟨"Planting", none, none, 1⟩ : FarmActivity)] =
      { total_carbon_kg := 3/2,
        breakdown_by_activity := [("Planting", 3/2)] } ∧
    get_carbon_summary_for_farm 1
        [(⟨"Planting", none, none, 1⟩ : FarmActivity)] ≠
      aggregate_spec 1 [(⟨"Planting", none, none, 1⟩ : FarmActivity)] := by
  have h1 : get_carbon_summary_for_farm 1
      [(⟨"Planting", none, none, 1⟩ : FarmActivity)] =
      { total_carbon_kg := 0, breakdown_by_activity := [] } := rfl
  have h2 : aggregate_spec 1 [(⟨"Planting", none, none, 1⟩ : FarmActivity)] =
      { total_carbon_kg := 3/2,
        breakdown_by_activity := [("Planting", 3/2)] } := by
    norm_num [aggregate_spec, estimate_carbon_footprint, List.dedup,
      List.pwFilter, List.filter, List.filterMap, List.lookup]
  refine ⟨h1, h2, ?_⟩
  rw [h1, h2]
  intro hcontr
  have := congrArg CarbonSummary.breakdown_by_activity hcontr
  simp at this

/-- C6 (amended): `get_carbon_summary_for_farm` groups the farm's activities
by category and sums the stored `carbon_footprint_kg` values, but a record
lacking a precomputed footprint contributes nothing (there is no
`CarbonEstimator.estimate` fallback — SQL `SUM` skips NULLs); the by-category
mapping contains exactly the categories with at least one non-NULL footprint,
mapped to the sum of those footprints; and the grand total — although
computed by an independent `SUM` query over all the farm's rows rather than
as the sum of the category sums — equals the sum of the breakdown values. -/
theorem carbon_summary_aggregation (farm_id : Nat)
    (activities : List FarmActivity) :
    (∀ t v,
      (t, v) ∈ (get_carbon_summary_for_farm farm_id
          activities).breakdown_by_activity ↔
        (groupFootprints (activities.filter (fun a => a.farm_id = farm_id)) t
            ≠ [] ∧
         v = (groupFootprints
            (activities.filter (fun a => a.farm_id = farm_id)) t).sum)) ∧
    (get_carbon_summary_for_farm farm_id activities).total_carbon_kg =
      ((get_carbon_summary_for_farm farm_id
        activities).breakdown_by_activity.map Prod.snd).sum := by
  constructor
  · intro t v
    show (t, v) ∈ breakdownByActivity
        (activities.filter (fun a => a.farm_id = farm_id)) ↔ _
    constructor
    · intro hmem
      obtain ⟨u, hu, hg⟩ := List.mem_filterMap.mp hmem
      by_cases hempty : groupFootprints
          (activities.filter (fun a => a.farm_id = farm_id)) u = []
      · simp [hempty] at hg
      · simp [hempty] at hg
        obtain ⟨rfl, rfl⟩ := hg
        exact ⟨hempty, rfl⟩
    · rintro ⟨hne, rfl⟩
      refine List.mem_filterMap.mpr ⟨t, ?_, ?_⟩
      · obtain ⟨q, hq⟩ := List.exists_mem_of_ne_nil _ hne
        obtain ⟨a, ha, -⟩ := List.mem_filterMap.mp hq
        obtain ⟨haRows, hat⟩ := List.mem_filter.mp ha
        refine List.mem_dedup.mpr (List.mem_map.mpr ⟨a, haRows, ?_⟩)
        simpa using hat
      · simp [hne]
  · exact (total_eq_breakdown_sum
      (activities.filter (fun a => a.farm_id = farm_id))).symm
